import Mathlib

/-!
Shallow embedding of the metasearch MCP server (`src/server.py`) tool-dispatch
and result-normalization layer.

Modelling conventions:
- Python values that flow through the untyped `arguments` / backend dicts are
  modelled by `PyVal` (strings, ints, `None`, dicts as association lists).
- Backend network effects are modelled by oracles passed to the dispatcher:
  each oracle returns the call's duration in seconds together with its raw
  behaviour (result / raised exception / connection error), so the fixed
  30-second `asyncio.wait_for` / `aiohttp` timeout can be expressed.
- Python code that may raise inside a `try` block is modelled in the
  `Except String` monad (the error carries `str(e)`); `except` clauses become
  `match` on the `Except` value.
-/

/-- Model of a dynamically-typed Python value as it appears in tool arguments
and backend JSON dictionaries. -/
inductive PyVal where
  | str (s : String)
  | int (n : Int)
  | none
  | dict (entries : List (String × PyVal))

/-- Python truthiness (`bool(v)`) for the modelled values. -/
def PyVal.truthy : PyVal → Bool
  | .str s => s ≠ ""
  | .int n => n ≠ 0
  | .none => false
  | .dict es => !es.isEmpty

mutual

/-- Python `repr(v)` for the modelled values (used by `str` on non-string values). -/
def pyRepr : PyVal → String
  | .str s => "\x27" ++ s ++ "\x27"
  | .int n => toString n
  | .none => "None"
  | .dict es => "\x7b" ++ pyReprEntries es ++ "\x7d"

/-- `repr` of the entries of a Python dict, comma separated. -/
def pyReprEntries : List (String × PyVal) → String
  | [] => ""
  | [(k, v)] => "\x27" ++ k ++ "\x27: " ++ pyRepr v
  | (k, v) :: e :: rest => "\x27" ++ k ++ "\x27: " ++ pyRepr v ++ ", " ++ pyReprEntries (e :: rest)

end

/-- Python `str(v)`: the string itself for strings, `repr`-style otherwise
(this is what f-string interpolation applies to each value). -/
def pyStr : PyVal → String
  | .str s => s
  | v => pyRepr v

/-- Lookup of a key in a Python dict modelled as an association list
(`d[k]` / `k in d` / `d.get(k, default)` are built from this). -/
def lookupKey (es : List (String × PyVal)) (k : String) : Option PyVal :=
  (es.find? (fun e => e.1 = k)).map (fun e => e.2)

/-- Python `int(str)` conversion: optional surrounding whitespace, optional
sign, decimal digits. -/
def pyIntOfStr (s : String) : Option Int :=
  let t := s.trim
  let core := if t.startsWith "+" || t.startsWith "-" then t.drop 1 else t
  match core.toNat? with
  | some n => some (if t.startsWith "-" then -(n : Int) else (n : Int))
  | Option.none => Option.none

/-- Python `int(v)` on a modelled value; `.error` is the raised exception's
message. -/
def pyInt : PyVal → Except String Int
  | .int n => .ok n
  | .str s =>
    match pyIntOfStr s with
    | some n => .ok n
    | Option.none => .error ("invalid literal for int() with base 10: \x27" ++ s ++ "\x27")
  | .none => .error "int() argument must be a string, a bytes-like object or a real number, not \x27NoneType\x27"
  | .dict _ => .error "int() argument must be a string, a bytes-like object or a real number, not \x27dict\x27"

/-- Whether `pat` occurs at the start of `s` (on character lists). -/
def charsStartWith : List Char → List Char → Bool
  | [], _ => true
  | _ :: _, [] => false
  | p :: ps, c :: cs => p = c && charsStartWith ps cs

/-- Whether `pat` occurs anywhere inside `s` (on character lists). -/
def charsInside (pat : List Char) : List Char → Bool
  | [] => pat.isEmpty
  | c :: cs => charsStartWith pat (c :: cs) || charsInside pat cs

/-- Substring test, modelling Python's `pat in s` on strings. -/
def strContains (s pat : String) : Bool :=
  charsInside pat.toList s.toList

/-- Python's `s.lower()` (ASCII range, which covers the matched keywords). -/
def strToLower (s : String) : String :=
  String.mk (s.toList.map Char.toLower)

/-- Python's `"\n".join(lines)`. -/
def joinLines : List String → String
  | [] => ""
  | [x] => x
  | x :: y :: rest => x ++ "\n" ++ joinLines (y :: rest)

/-- A unit of response content returned by the dispatcher: `TextContent` or
`ImageContent` from `server.py` (the image block keeps the dynamic values the
code passes for `url` and `title`). -/
inductive ContentBlock where
  | text (t : String)
  | image (url : PyVal) (title : PyVal)

/-! ## Text search: `process_search_results` (server.py lines 114-146) -/

/-- One entry of the Tavily `results` array, as consumed by
`process_search_results` (each field read with `.get(key, placeholder)`). -/
structure SearchItem where
  title : Option String
  url : Option String
  snippet : Option String

/-- The fields of a non-empty Tavily response dict that
`process_search_results` consumes. `answer = some a` models the key being
present with value `a`; `results = some l` models the key being present. -/
structure TavilyResp where
  answer : Option String
  results : Option (List SearchItem)

/-- The argument of `process_search_results`: either a Python-falsy value
(`None` or an empty dict, the `if not results` branch) or a non-empty
response dict. -/
inductive TavilyResults where
  | empty
  | data (r : TavilyResp)

/-- server.py line 120: fixed message for a falsy result. -/
def noResultsMsg : String :=
  "No results were found for your query. Please try a different search term."

/-- server.py line 145: fixed message when the dict is truthy but contributes
no answer and no results. -/
def noRelevantMsg : String :=
  "The search was completed but no relevant information was found. Please try refining your query."

/-- Truthiness of `'answer' in results and results['answer']`. -/
def answerTruthy : Option String → Bool
  | some a => a ≠ ""
  | Option.none => false

/-- Truthiness of `'results' in results and results['results']`. -/
def resultsTruthy : Option (List SearchItem) → Bool
  | some l => !l.isEmpty
  | Option.none => false

/-- The lines appended for the AI-answer section (server.py lines 125-129). -/
def answerLines : Option String → List String
  | some a => if a ≠ "" then ["AI Answer:", a, "\n"] else []
  | Option.none => []

/-- The loop body of server.py lines 134-137: three lines per result, with the
1-based index `i` threaded through (`enumerate(results, 1)`). -/
def renderItems : Nat → List SearchItem → List String
  | _, [] => []
  | i, item :: rest =>
    ("\n" ++ toString i ++ ". " ++ item.title.getD "Title not found")
      :: ("URL: " ++ item.url.getD "URL not found")
      :: ("Summary: " ++ item.snippet.getD "Summary not found" ++ "\n")
      :: renderItems (i + 1) rest

/-- The lines appended for the search-results section (server.py lines 131-137). -/
def resultsLines : Option (List SearchItem) → List String
  | some l => if !l.isEmpty then "\nSearch Results:" :: renderItems 1 l else []
  | Option.none => []

/-- `process_search_results` (server.py lines 114-146): builds the single
`TextContent` for a text search result. -/
def processSearchResults : TavilyResults → ContentBlock
  | .empty => .text noResultsMsg
  | .data r =>
    let rt := answerLines r.answer ++ resultsLines r.results
    if !rt.isEmpty then .text (joinLines rt)
    else .text noRelevantMsg

/-! ## Text search: `handle_tavily_search` (server.py lines 259-317) -/

/-- server.py line 265: invalid-arguments message of the `search` tool. -/
def searchInvalidArgsMsg : String :=
  "Error: Invalid arguments. A \x27query\x27 parameter is required."

/-- server.py line 295: fixed message on timeout of the `search` tool. -/
def searchTimeoutMsg : String :=
  "The search operation timed out. Please try again with a more specific query or check your internet connection."

/-- server.py line 306: fixed message for the authentication-failure category. -/
def authErrMsg : String :=
  "Authentication error occurred. Please check the API key configuration."

/-- server.py line 311: fixed message for the rate-limited category. -/
def rateLimitMsg : String :=
  "Rate limit exceeded. Please wait a moment before trying again."

/-- server.py lines 298-317: the `except Exception` classifier of
`handle_tavily_search`, mapping the raised exception's message to the
user-facing text. -/
def classifyTavilyError (msg : String) : String :=
  if strContains (strToLower msg) "api_key" then authErrMsg
  else if strContains (strToLower msg) "rate limit" then rateLimitMsg
  else "An unexpected error occurred during the search. Please try again later. Error: " ++ msg

/-- Raw behaviour of the awaited Tavily search task: it either produces a
response or raises an exception with the given message. -/
inductive TavilyRaw where
  | ok (r : TavilyResults)
  | exn (msg : String)

/-- The `timeout=30.0` constant of `asyncio.wait_for` (server.py line 285). -/
def tavilyDeadlineSeconds : Nat := 30

/-- `handle_tavily_search` (server.py lines 259-317). The backend is an
oracle from the forwarded `(query, search_depth)` pair to the call's duration
in seconds and its raw behaviour; `asyncio.wait_for` raises
`asyncio.TimeoutError` when the duration exceeds the fixed deadline.
Returns the content blocks together with the list of backend invocations
actually issued (as `(query, search_depth)` pairs). -/
def handleTavilySearch (tavily : PyVal → PyVal → Nat × TavilyRaw) (arguments : PyVal) :
    List ContentBlock × List (PyVal × PyVal) :=
  match arguments with
  | .dict es =>
    match lookupKey es "query" with
    | some q =>
      let depth := (lookupKey es "search_depth").getD (.str "basic")
      let call := tavily q depth
      if call.1 > tavilyDeadlineSeconds then
        ([.text searchTimeoutMsg], [(q, depth)])
      else
        match call.2 with
        | .ok r => ([processSearchResults r], [(q, depth)])
        | .exn m => ([.text (classifyTavilyError m)], [(q, depth)])
    | Option.none => ([.text searchInvalidArgsMsg], [])
  | _ => ([.text searchInvalidArgsMsg], [])

/-! ## Image search: `perform_searxng_image_search` (server.py lines 149-199) -/

/-- One raw entry of the SearXNG JSON `results` array: each field that the
adapter reads with `item.get(key, default)`, `some v` meaning the key is
present with value `v` (which may itself be `None`). -/
structure RawImageItem where
  title : Option PyVal
  url : Option PyVal
  img_src : Option PyVal
  source : Option PyVal
  thumbnail : Option PyVal
  img_height : Option PyVal
  img_width : Option PyVal

/-- server.py lines 178-186: the image record dict the adapter constructs from
one raw item, with defaults substituted for missing keys. -/
def mkImageRecord (item : RawImageItem) : List (String × PyVal) :=
  [("title", item.title.getD (.str "No title")),
   ("url", item.url.getD (.str "")),
   ("img_src", item.img_src.getD (.str "")),
   ("source", item.source.getD (.str "Unknown source")),
   ("thumbnail", item.thumbnail.getD (.str "")),
   ("height", item.img_height.getD (.int 0)),
   ("width", item.img_width.getD (.int 0))]

/-- The JSON body of a SearXNG response, as consumed by the adapter
(`if "results" in data`). -/
structure SearxBody where
  results : Option (List RawImageItem)

/-- Raw behaviour of the SearXNG HTTP GET: an HTTP response with a status and
JSON body, an `aiohttp.ClientError`, or some other raised exception. -/
inductive SearxRaw where
  | resp (status : Nat) (body : SearxBody)
  | clientError (msg : String)
  | exn (msg : String)

/-- The `timeout=30` constant of the `session.get` call (server.py line 166). -/
def searxDeadlineSeconds : Nat := 30

/-- Return value of `perform_searxng_image_search`: either
`{"error": msg}` or `{"query": ..., "results": [...]}`. -/
inductive SearxResult where
  | err (msg : String)
  | ok (query : PyVal) (results : List (List (String × PyVal)))

/-- `perform_searxng_image_search` (server.py lines 149-199). The HTTP call is
given as its duration in seconds plus raw behaviour; exceeding the fixed
30-second timeout raises `asyncio.TimeoutError`, caught on line 194. Within
the dispatcher `limit` is always the clamped value in `[1, 20]`, so the
Python slice `data["results"][:limit]` is `List.take`. -/
def performSearxngImageSearch (httpCall : Nat × SearxRaw) (query : PyVal) (limit : Int) :
    SearxResult :=
  if httpCall.1 > searxDeadlineSeconds then .err "Request timed out"
  else
    match httpCall.2 with
    | .resp status body =>
      if status ≠ 200 then .err ("SearXNG API returned status code " ++ toString status)
      else
        match body.results with
        | some items => .ok query ((items.take limit.toNat).map mkImageRecord)
        | Option.none => .ok query []
    | .clientError m => .err ("Connection error: " ++ m)
    | .exn m => .err ("Error during search: " ++ m)

/-! ## Image search: `process_image_search_results` (server.py lines 202-239) -/

/-- Python `img[k]` on an image record dict: raises `KeyError` (whose `str` is
the quoted key) when the key is missing. -/
def imgLookup (img : List (String × PyVal)) (k : String) : Except String PyVal :=
  match lookupKey img k with
  | some v => .ok v
  | Option.none => .error ("\x27" ++ k ++ "\x27")

/-- server.py lines 224-225: the optional dimensions line, with Python's
short-circuit `img['height'] and img['width']`. -/
def sizeLineOf (img : List (String × PyVal)) : Except String String := do
  let h ← imgLookup img "height"
  if h.truthy then do
    let w ← imgLookup img "width"
    if w.truthy then
      pure ("   Size: " ++ pyStr w ++ "x" ++ pyStr h ++ "\n")
    else pure ""
  else pure ""

/-- The loop body of server.py lines 220-226: the summary text contributed by
one image record at 1-based index `idx`. -/
def summaryEntry (idx : Nat) (img : List (String × PyVal)) : Except String String := do
  let title ← imgLookup img "title"
  let source ← imgLookup img "source"
  let url ← imgLookup img "url"
  let size ← sizeLineOf img
  pure (toString idx ++ ". " ++ pyStr title ++ "\n" ++ "   Source: " ++ pyStr source ++ "\n"
    ++ "   URL: " ++ pyStr url ++ "\n" ++ size ++ "\n")

/-- The whole summary loop (`for idx, img in enumerate(results['results'], 1)`),
accumulating the per-record texts. -/
def summaryEntries : Nat → List (List (String × PyVal)) → Except String String
  | _, [] => pure ""
  | idx, img :: rest => do
    let e ← summaryEntry idx img
    let r ← summaryEntries (idx + 1) rest
    pure (e ++ r)

/-- The image-block loop of server.py lines 231-237: one `ImageContent` per
record whose `img_src` is truthy, in order. -/
def buildImages : List (List (String × PyVal)) → Except String (List ContentBlock)
  | [] => pure []
  | img :: rest =>
    let src := (lookupKey img "img_src").getD .none
    if src.truthy then do
      let title ← imgLookup img "title"
      let r ← buildImages rest
      pure (ContentBlock.image src title :: r)
    else buildImages rest

/-- server.py line 215: fixed message when the image result list is empty. -/
def noImageResultsMsg : String :=
  "No image results were found for your query. Please try a different search term."

/-- `process_image_search_results` (server.py lines 202-239). A `.error`
models a raised `KeyError` (propagated to the caller's `except`). -/
def processImageSearchResults : SearxResult → Except String (List ContentBlock)
  | .err m => pure [.text ("Error in image search: " ++ m)]
  | .ok q results =>
    if results.isEmpty then pure [.text noImageResultsMsg]
    else do
      let entries ← summaryEntries 1 results
      let summary := "Found " ++ toString results.length ++ " images matching \x27"
        ++ pyStr q ++ "\x27:\n\n" ++ entries
      let images ← buildImages results
      pure (ContentBlock.text summary :: images)

/-! ## Image search: `handle_searxng_image_search` (server.py lines 320-353) -/

/-- server.py line 326: invalid-arguments message of the `image_search` tool. -/
def imageInvalidArgsMsg : String :=
  "Error: Invalid arguments. A \x27query\x27 parameter is required for image search."

/-- server.py line 352: the catch-all message of `handle_searxng_image_search`. -/
def imageUnexpectedMsg (m : String) : String :=
  "An unexpected error occurred during image search. Please try again later. Error: " ++ m

/-- server.py lines 334-337: the limit clamp (`if limit < 1 ... elif limit > 20 ...`). -/
def clampLimit (limit : Int) : Int :=
  if limit < 1 then 1 else if limit > 20 then 20 else limit

/-- `handle_searxng_image_search` (server.py lines 320-353). The backend is an
oracle from the `(query, limit)` pair actually used to the HTTP call's
duration and raw behaviour. Returns the content blocks together with the list
of backend invocations issued (as `(query, limit)` pairs). Exceptions from
`int(...)` and from result processing are caught by the handler's
`except Exception` (lines 347-353). -/
def handleImageSearch (searx : PyVal → Int → Nat × SearxRaw) (arguments : PyVal) :
    List ContentBlock × List (PyVal × Int) :=
  match arguments with
  | .dict es =>
    match lookupKey es "query" with
    | some q =>
      match pyInt ((lookupKey es "limit").getD (.int 5)) with
      | .error m => ([.text (imageUnexpectedMsg m)], [])
      | .ok rawLimit =>
        let limit := clampLimit rawLimit
        let res := performSearxngImageSearch (searx q limit) q limit
        match processImageSearchResults res with
        | .ok blocks => (blocks, [(q, limit)])
        | .error m => ([.text (imageUnexpectedMsg m)], [(q, limit)])
    | Option.none => ([.text imageInvalidArgsMsg], [])
  | _ => ([.text imageInvalidArgsMsg], [])

/-! ## Dispatcher: `call_tool` (server.py lines 242-256) -/

/-- The two backend oracles available to one dispatch. -/
structure Backends where
  tavily : PyVal → PyVal → Nat × TavilyRaw
  searxHttp : PyVal → Int → Nat × SearxRaw

/-- Observable outcome of one dispatch: the returned content sequence and the
backend invocations that were issued. -/
structure DispatchResult where
  blocks : List ContentBlock
  tavilyCalls : List (PyVal × PyVal)
  searxCalls : List (PyVal × Int)

/-- server.py line 255: the unknown-tool message. -/
def unknownToolMsg (name : String) : String :=
  "Error: Unknown tool \x27" ++ name ++ "\x27. Supported tools are \x27search\x27 and \x27image_search\x27."

/-- `call_tool` (server.py lines 242-256): tool-name dispatch. -/
def callTool (b : Backends) (name : String) (arguments : PyVal) : DispatchResult :=
  if name = "search" then
    let r := handleTavilySearch b.tavily arguments
    ⟨r.1, r.2, []⟩
  else if name = "image_search" then
    let r := handleImageSearch b.searxHttp arguments
    ⟨r.1, [], r.2⟩
  else
    ⟨[.text (unknownToolMsg name)], [], []⟩

/-! ## Startup credential handling (server.py lines 29-33) -/

/-- The hard-coded default passed to `os.getenv("TAVILY_API_KEY", ...)` on
server.py line 30. -/
def defaultApiKeyValue : String := "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"

/-- server.py line 30: the resolved `API_KEY`, given the environment variable's
value (or `Option.none` when it is unset). -/
def resolveApiKey (env : Option String) : String := env.getD defaultApiKeyValue

/-- server.py lines 30-33: module-level startup logic — resolve the key, then
`raise ValueError` iff the resolved key is falsy. -/
def startupCheck (env : Option String) : Except String String :=
  let k := resolveApiKey env
  if k = "" then .error "TAVILY_API_KEY environment variable required" else .ok k

/-! ## Spec-side definitions used to state the claims -/

/-- Whether `arguments` is a mapping containing the key `"query"`. -/
def hasQueryKey : PyVal → Bool
  | .dict es => (lookupKey es "query").isSome
  | _ => false

/-- Spec-side `clamp(n, lo, hi)`. -/
def clampSpec (n lo hi : Int) : Int := max lo (min hi n)

/-- Spec-side description of the produced image blocks: one `ImageBlock` per
raw item whose (defaulted) `img_src` is non-empty, preserving backend order. -/
def specImageBlocks (items : List RawImageItem) : List ContentBlock :=
  items.filterMap (fun it =>
    let src := it.img_src.getD (.str "")
    if src.truthy then some (.image src (it.title.getD (.str "No title"))) else Option.none)

/-- Spec-side description of the summary text contributed by one raw item at
1-based index `idx`: title, source and url lines, with the size line present
exactly when both (defaulted) dimensions are truthy. -/
def specSummaryEntry (idx : Nat) (it : RawImageItem) : String :=
  toString idx ++ ". " ++ pyStr (it.title.getD (.str "No title")) ++ "\n" ++ "   Source: "
    ++ pyStr (it.source.getD (.str "Unknown source")) ++ "\n" ++ "   URL: "
    ++ pyStr (it.url.getD (.str "")) ++ "\n"
    ++ (if (it.img_height.getD (.int 0)).truthy && (it.img_width.getD (.int 0)).truthy
        then "   Size: " ++ pyStr (it.img_width.getD (.int 0)) ++ "x"
          ++ pyStr (it.img_height.getD (.int 0)) ++ "\n"
        else "")
    ++ "\n"

/-- Spec-side summary entries from 1-based index `idx` on, in backend order. -/
def specSummaryFrom : Nat → List RawImageItem → String
  | _, [] => ""
  | idx, it :: rest => specSummaryEntry idx it ++ specSummaryFrom (idx + 1) rest

/-- Spec-side description of the whole summary block: the count header
followed by one entry per raw item. -/
def specSummary (q : PyVal) (items : List RawImageItem) : String :=
  "Found " ++ toString items.length ++ " images matching \x27" ++ pyStr q ++ "\x27:\n\n"
    ++ specSummaryFrom 1 items

/-! ## Concrete fixtures used by witnesses and counterexamples -/

/-- A benign backend pair: the Tavily oracle replies instantly with a falsy
result, the SearXNG oracle with an instant empty 200 response. -/
def constBackends : Backends where
  tavily := fun _ _ => (0, .ok .empty)
  searxHttp := fun _ _ => (0, .resp 200 ⟨some []⟩)

/-- A backend pair both of whose calls take 31 seconds. -/
def slowBackends : Backends where
  tavily := fun _ _ => (31, .ok .empty)
  searxHttp := fun _ _ => (31, .resp 200 ⟨some []⟩)

/-- A backend pair whose Tavily call raises an exception whose message
contains `"auth"` (but not `"api_key"` or `"rate limit"`). -/
def unauthorizedBackends : Backends where
  tavily := fun _ _ => (0, .exn "Unauthorized")
  searxHttp := fun _ _ => (0, .clientError "boom")

/-- A raw image item with a source link but zero height, so its size line is
omitted. -/
def sampleImageItem : RawImageItem :=
  ⟨some (.str "Tokyo"), some (.str "https://example.com/page"),
   some (.str "https://example.com/a.jpg"), some (.str "example"),
   Option.none, some (.int 0), some (.int 640)⟩

/-- A raw image item lacking `img_src` (so it yields no image block) but with
both dimensions present. -/
def sampleImageItemNoSrc : RawImageItem :=
  ⟨Option.none, Option.none, Option.none, Option.none, Option.none,
   some (.int 480), some (.int 640)⟩

/-- The search item of spec scenario A. -/
def sampleSearchItem : SearchItem := ⟨some "T", some "U", some "S"⟩

/-! ## Helper lemmas -/

theorem exceptBindOk (a : α) (f : α → Except ε β) :
    (Except.ok a : Except ε α) >>= f = f a := rfl

theorem exceptPureEq (a : α) : (pure a : Except ε α) = Except.ok a := rfl

theorem sizeLineOf_mk (it : RawImageItem) :
    sizeLineOf (mkImageRecord it) =
      Except.ok
        (if (it.img_height.getD (.int 0)).truthy && (it.img_width.getD (.int 0)).truthy
         then "   Size: " ++ pyStr (it.img_width.getD (.int 0)) ++ "x"
           ++ pyStr (it.img_height.getD (.int 0)) ++ "\n"
         else "") := by
  show (if (it.img_height.getD (.int 0)).truthy
        then (if (it.img_width.getD (.int 0)).truthy
              then Except.ok ("   Size: " ++ pyStr (it.img_width.getD (.int 0)) ++ "x"
                ++ pyStr (it.img_height.getD (.int 0)) ++ "\n")
              else (Except.ok "" : Except String String))
        else (Except.ok "" : Except String String)) = _
  cases hh : (it.img_height.getD (.int 0)).truthy <;>
    cases hw : (it.img_width.getD (.int 0)).truthy <;> simp [hh, hw]

theorem summaryEntry_mk (idx : Nat) (it : RawImageItem) :
    summaryEntry idx (mkImageRecord it) = Except.ok (specSummaryEntry idx it) := by
  show (sizeLineOf (mkImageRecord it) >>= fun size =>
      pure (toString idx ++ ". " ++ pyStr (it.title.getD (.str "No title")) ++ "\n"
        ++ "   Source: " ++ pyStr (it.source.getD (.str "Unknown source")) ++ "\n"
        ++ "   URL: " ++ pyStr (it.url.getD (.str "")) ++ "\n" ++ size ++ "\n")) = _
  rw [sizeLineOf_mk, exceptBindOk]
  rfl

theorem summaryEntries_mk (items : List RawImageItem) : ∀ idx : Nat,
    summaryEntries idx (items.map mkImageRecord) = Except.ok (specSummaryFrom idx items) := by
  induction items with
  | nil => intro idx; rfl
  | cons it rest ih =>
    intro idx
    show (summaryEntry idx (mkImageRecord it) >>= fun e =>
        summaryEntries (idx + 1) (rest.map mkImageRecord) >>= fun r => pure (e ++ r)) = _
    rw [summaryEntry_mk, exceptBindOk, ih, exceptBindOk]
    rfl

theorem buildImages_mk (items : List RawImageItem) :
    buildImages (items.map mkImageRecord) = Except.ok (specImageBlocks items) := by
  induction items with
  | nil => rfl
  | cons it rest ih =>
    show (if (it.img_src.getD (.str "")).truthy
          then (imgLookup (mkImageRecord it) "title" >>= fun title =>
            buildImages (rest.map mkImageRecord) >>= fun r =>
            pure (ContentBlock.image (it.img_src.getD (.str "")) title :: r))
          else buildImages (rest.map mkImageRecord)) = _
    have htitle : imgLookup (mkImageRecord it) "title"
        = Except.ok (it.title.getD (.str "No title")) := rfl
    cases hs : (it.img_src.getD (.str "")).truthy <;>
      simp [hs, htitle, exceptBindOk, exceptPureEq, ih, specImageBlocks, List.filterMap_cons]

theorem processImage_mk (q : PyVal) (items : List RawImageItem) (h : items ≠ []) :
    processImageSearchResults (.ok q (items.map mkImageRecord)) =
      Except.ok (ContentBlock.text (specSummary q items) :: specImageBlocks items) := by
  cases items with
  | nil => exact absurd rfl h
  | cons it rest =>
    show (summaryEntries 1 ((it :: rest).map mkImageRecord) >>= fun entries =>
        buildImages ((it :: rest).map mkImageRecord) >>= fun images =>
        pure (ContentBlock.text ("Found " ++ toString ((it :: rest).map mkImageRecord).length
          ++ " images matching \x27" ++ pyStr q ++ "\x27:\n\n" ++ entries) :: images)) = _
    rw [summaryEntries_mk, exceptBindOk, buildImages_mk, exceptBindOk]
    simp [specSummary, exceptPureEq]

theorem processImage_err (m : String) :
    processImageSearchResults (.err m)
      = Except.ok [ContentBlock.text ("Error in image search: " ++ m)] := rfl

theorem processImage_emptyRes (q : PyVal) :
    processImageSearchResults (.ok q []) = Except.ok [ContentBlock.text noImageResultsMsg] := rfl

theorem processImage_adapter_total (httpCall : Nat × SearxRaw) (q : PyVal) (limit : Int) :
    ∃ t rest, processImageSearchResults (performSearxngImageSearch httpCall q limit)
      = Except.ok (ContentBlock.text t :: rest) := by
  obtain ⟨dur, raw⟩ := httpCall
  by_cases hd : dur > searxDeadlineSeconds
  · exact ⟨"Error in image search: " ++ "Request timed out", [],
      by simp [performSearxngImageSearch, hd, processImage_err]⟩
  · match raw with
    | .clientError m =>
      exact ⟨"Error in image search: " ++ ("Connection error: " ++ m), [],
        by simp [performSearxngImageSearch, hd, processImage_err]⟩
    | .exn m =>
      exact ⟨"Error in image search: " ++ ("Error during search: " ++ m), [],
        by simp [performSearxngImageSearch, hd, processImage_err]⟩
    | .resp status body =>
      by_cases hs : status = 200
      · rcases body with ⟨results⟩
        match results with
        | Option.none =>
          exact ⟨noImageResultsMsg, [],
            by simp [performSearxngImageSearch, hd, hs, processImage_emptyRes]⟩
        | some items =>
          match hit : items.take limit.toNat with
          | [] =>
            exact ⟨noImageResultsMsg, [],
              by simp [performSearxngImageSearch, hd, hs, hit, processImage_emptyRes]⟩
          | it :: rest' =>
            refine ⟨specSummary q (it :: rest'), specImageBlocks (it :: rest'), ?_⟩
            have hmk := processImage_mk q (it :: rest') (by simp)
            simpa [performSearxngImageSearch, hd, hs, hit] using hmk
      · exact ⟨"Error in image search: " ++ ("SearXNG API returned status code " ++ toString status),
          [], by simp [performSearxngImageSearch, hd, hs, processImage_err]⟩

theorem handleImage_first_text (searx : PyVal → Int → Nat × SearxRaw) (args : PyVal) :
    ∃ t rest, (handleImageSearch searx args).1 = ContentBlock.text t :: rest := by
  match args with
  | .str s => exact ⟨imageInvalidArgsMsg, [], rfl⟩
  | .int n => exact ⟨imageInvalidArgsMsg, [], rfl⟩
  | .none => exact ⟨imageInvalidArgsMsg, [], rfl⟩
  | .dict es =>
    match hq : lookupKey es "query" with
    | Option.none => exact ⟨imageInvalidArgsMsg, [], by simp [handleImageSearch, hq]⟩
    | some q =>
      match hl : pyInt ((lookupKey es "limit").getD (.int 5)) with
      | .error m => exact ⟨imageUnexpectedMsg m, [], by simp [handleImageSearch, hq, hl]⟩
      | .ok n =>
        obtain ⟨t, rest, hp⟩ := processImage_adapter_total (searx q (clampLimit n)) q (clampLimit n)
        exact ⟨t, rest, by simp [handleImageSearch, hq, hl, hp]⟩

theorem processSearch_is_text (r : TavilyResults) :
    ∃ t, processSearchResults r = ContentBlock.text t := by
  cases r with
  | empty => exact ⟨noResultsMsg, rfl⟩
  | data r =>
    cases h : !(answerLines r.answer ++ resultsLines r.results).isEmpty
    · exact ⟨noRelevantMsg, by simp [processSearchResults, h]⟩
    · exact ⟨joinLines (answerLines r.answer ++ resultsLines r.results),
        by simp [processSearchResults, h]⟩

theorem renderItems_length (l : List SearchItem) : ∀ k, (renderItems k l).length = 3 * l.length := by
  induction l with
  | nil => intro k; rfl
  | cons it rest ih =>
    intro k
    simp only [renderItems, List.length_cons, ih (k + 1), List.length]
    omega

theorem renderItems_titleLine (l : List SearchItem) : ∀ k i,
    (renderItems k l).get? (3 * i) = (l.get? i).map
      (fun item => "\n" ++ toString (k + i) ++ ". " ++ item.title.getD "Title not found") := by
  induction l with
  | nil => intro k i; rfl
  | cons it rest ih =>
    intro k i
    cases i with
    | zero => rfl
    | succ j =>
      have step : (renderItems k (it :: rest)).get? (3 * (j + 1))
          = (renderItems (k + 1) rest).get? (3 * j) := rfl
      have hrhs : (it :: rest).get? (j + 1) = rest.get? j := rfl
      rw [step, ih (k + 1) j, hrhs]
      have hk : k + 1 + j = k + (j + 1) := by omega
      simp [hk]

theorem renderItems_urlLine (l : List SearchItem) : ∀ k i,
    (renderItems k l).get? (3 * i + 1) = (l.get? i).map
      (fun item => "URL: " ++ item.url.getD "URL not found") := by
  induction l with
  | nil => intro k i; rfl
  | cons it rest ih =>
    intro k i
    cases i with
    | zero => rfl
    | succ j =>
      have step : (renderItems k (it :: rest)).get? (3 * (j + 1) + 1)
          = (renderItems (k + 1) rest).get? (3 * j + 1) := rfl
      have hrhs : (it :: rest).get? (j + 1) = rest.get? j := rfl
      rw [step, ih (k + 1) j, hrhs]

theorem renderItems_summaryLine (l : List SearchItem) : ∀ k i,
    (renderItems k l).get? (3 * i + 2) = (l.get? i).map
      (fun item => "Summary: " ++ item.snippet.getD "Summary not found" ++ "\n") := by
  induction l with
  | nil => intro k i; rfl
  | cons it rest ih =>
    intro k i
    cases i with
    | zero => rfl
    | succ j =>
      have step : (renderItems k (it :: rest)).get? (3 * (j + 1) + 2)
          = (renderItems (k + 1) rest).get? (3 * j + 2) := rfl
      have hrhs : (it :: rest).get? (j + 1) = rest.get? j := rfl
      rw [step, ih (k + 1) j, hrhs]

theorem answerLines_nil (a : Option String) (h : answerTruthy a = false) : answerLines a = [] := by
  cases a with
  | none => rfl
  | some s =>
    have hs : s = "" := by simpa [answerTruthy] using h
    simp [answerLines, hs]

theorem answerLines_pos (a : String) (ha : a ≠ "") :
    answerLines (some a) = ["AI Answer:", a, "\n"] := by
  simp [answerLines, ha]

theorem resultsLines_nil (rs : Option (List SearchItem)) (h : resultsTruthy rs = false) :
    resultsLines rs = [] := by
  cases rs with
  | none => rfl
  | some l =>
    have hl : l.isEmpty = true := by simpa [resultsTruthy] using h
    simp [resultsLines, hl]

theorem processSearch_noContent (r : TavilyResp) (h1 : answerTruthy r.answer = false)
    (h2 : resultsTruthy r.results = false) :
    processSearchResults (.data r) = .text noRelevantMsg := by
  simp [processSearchResults, answerLines_nil r.answer h1, resultsLines_nil r.results h2]

theorem processSearch_both (a : String) (l : List SearchItem) (ha : a ≠ "") (hl : l ≠ []) :
    processSearchResults (.data ⟨some a, some l⟩) =
      .text ("AI Answer:" ++ "\n" ++ (a ++ "\n" ++ ("\n" ++ "\n"
        ++ ("\nSearch Results:" ++ "\n" ++ joinLines (renderItems 1 l))))) := by
  match l with
  | x :: xs =>
    simp only [processSearchResults]
    rw [answerLines_pos a ha]
    rfl

theorem processSearch_answerOnly (a : String) (ha : a ≠ "") :
    processSearchResults (.data ⟨some a, Option.none⟩) =
      .text ("AI Answer:" ++ "\n" ++ (a ++ "\n" ++ "\n")) := by
  simp only [processSearchResults]
  rw [answerLines_pos a ha]
  rfl

theorem processSearch_resultsOnly (l : List SearchItem) (hl : l ≠ []) :
    processSearchResults (.data ⟨Option.none, some l⟩) =
      .text ("\nSearch Results:" ++ "\n" ++ joinLines (renderItems 1 l)) := by
  match l with
  | x :: xs => rfl

theorem callTool_search (b : Backends) (args : PyVal) :
    callTool b "search" args
      = ⟨(handleTavilySearch b.tavily args).1, (handleTavilySearch b.tavily args).2, []⟩ := rfl

theorem callTool_image (b : Backends) (args : PyVal) :
    callTool b "image_search" args
      = ⟨(handleImageSearch b.searxHttp args).1, [], (handleImageSearch b.searxHttp args).2⟩ := rfl

theorem callTool_other (b : Backends) (name : String) (args : PyVal)
    (h1 : name ≠ "search") (h2 : name ≠ "image_search") :
    callTool b name args = ⟨[.text (unknownToolMsg name)], [], []⟩ := by
  unfold callTool
  rw [if_neg h1, if_neg h2]

theorem handleTavily_single (tavily : PyVal → PyVal → Nat × TavilyRaw) (args : PyVal) :
    ∃ t, (handleTavilySearch tavily args).1 = [ContentBlock.text t] := by
  match args with
  | .str s => exact ⟨searchInvalidArgsMsg, rfl⟩
  | .int n => exact ⟨searchInvalidArgsMsg, rfl⟩
  | .none => exact ⟨searchInvalidArgsMsg, rfl⟩
  | .dict es =>
    match hq : lookupKey es "query" with
    | Option.none => exact ⟨searchInvalidArgsMsg, by simp [handleTavilySearch, hq]⟩
    | some q =>
      rcases hc : tavily q ((lookupKey es "search_depth").getD (.str "basic")) with ⟨dur, raw⟩
      by_cases hd : dur > tavilyDeadlineSeconds
      · exact ⟨searchTimeoutMsg, by simp [handleTavilySearch, hq, hc, hd]⟩
      · match raw with
        | .ok r =>
          obtain ⟨t, ht⟩ := processSearch_is_text r
          exact ⟨t, by simp [handleTavilySearch, hq, hc, hd, ht]⟩
        | .exn m =>
          exact ⟨classifyTavilyError m, by simp [handleTavilySearch, hq, hc, hd]⟩

theorem handleTavily_invalid (tavily : PyVal → PyVal → Nat × TavilyRaw) (args : PyVal)
    (h : hasQueryKey args = false) :
    handleTavilySearch tavily args = ([.text searchInvalidArgsMsg], []) := by
  match args with
  | .str s => rfl
  | .int n => rfl
  | .none => rfl
  | .dict es =>
    match hq : lookupKey es "query" with
    | Option.none => simp [handleTavilySearch, hq]
    | some q => simp [hasQueryKey, hq] at h

theorem handleImage_invalid (searx : PyVal → Int → Nat × SearxRaw) (args : PyVal)
    (h : hasQueryKey args = false) :
    handleImageSearch searx args = ([.text imageInvalidArgsMsg], []) := by
  match args with
  | .str s => rfl
  | .int n => rfl
  | .none => rfl
  | .dict es =>
    match hq : lookupKey es "query" with
    | Option.none => simp [handleImageSearch, hq]
    | some q => simp [hasQueryKey, hq] at h

theorem handleTavily_timeout (tavily : PyVal → PyVal → Nat × TavilyRaw)
    (es : List (String × PyVal)) (q : PyVal) (dur : Nat) (raw : TavilyRaw)
    (hq : lookupKey es "query" = some q)
    (hc : tavily q ((lookupKey es "search_depth").getD (.str "basic")) = (dur, raw))
    (hd : dur > tavilyDeadlineSeconds) :
    handleTavilySearch tavily (.dict es) =
      ([.text searchTimeoutMsg], [(q, (lookupKey es "search_depth").getD (.str "basic"))]) := by
  simp [handleTavilySearch, hq, hc, hd]

theorem handleTavily_exn (tavily : PyVal → PyVal → Nat × TavilyRaw)
    (es : List (String × PyVal)) (q : PyVal) (dur : Nat) (m : String)
    (hq : lookupKey es "query" = some q)
    (hc : tavily q ((lookupKey es "search_depth").getD (.str "basic")) = (dur, .exn m))
    (hd : ¬ dur > tavilyDeadlineSeconds) :
    handleTavilySearch tavily (.dict es) =
      ([.text (classifyTavilyError m)],
        [(q, (lookupKey es "search_depth").getD (.str "basic"))]) := by
  simp [handleTavilySearch, hq, hc, hd]

theorem handleImage_call (searx : PyVal → Int → Nat × SearxRaw) (es : List (String × PyVal))
    (q : PyVal) (n : Int) (hq : lookupKey es "query" = some q)
    (hl : pyInt ((lookupKey es "limit").getD (.int 5)) = .ok n) :
    (handleImageSearch searx (.dict es)).2 = [(q, clampLimit n)] := by
  cases hp : processImageSearchResults
      (performSearxngImageSearch (searx q (clampLimit n)) q (clampLimit n)) <;>
    simp [handleImageSearch, hq, hl, hp]

theorem handleImage_perform_err (searx : PyVal → Int → Nat × SearxRaw)
    (es : List (String × PyVal)) (q : PyVal) (n : Int) (m : String)
    (hq : lookupKey es "query" = some q)
    (hl : pyInt ((lookupKey es "limit").getD (.int 5)) = .ok n)
    (hperf : performSearxngImageSearch (searx q (clampLimit n)) q (clampLimit n) = .err m) :
    (handleImageSearch searx (.dict es)).1 = [.text ("Error in image search: " ++ m)] := by
  simp [handleImageSearch, hq, hl, hperf, processImage_err]

theorem handleImage_coercion_err (searx : PyVal → Int → Nat × SearxRaw)
    (es : List (String × PyVal)) (q : PyVal) (m : String)
    (hq : lookupKey es "query" = some q)
    (hl : pyInt ((lookupKey es "limit").getD (.int 5)) = .error m) :
    handleImageSearch searx (.dict es) = ([.text (imageUnexpectedMsg m)], []) := by
  simp [handleImageSearch, hq, hl]

theorem clampLimit_eq_clampSpec (n : Int) : clampLimit n = clampSpec n 1 20 := by
  simp only [clampLimit, clampSpec]
  split_ifs <;> omega

/-! ## Claim theorems -/

/-- Claim C2 (code bug): the spec says a missing `TAVILY_API_KEY` environment
variable is a fatal startup error, but `os.getenv` on server.py line 30 is
given a hard-coded non-empty default key, so with the variable unset the
resolved key is that default, the `if not API_KEY` guard on line 31 cannot
fire, and startup succeeds instead of raising. -/
theorem c2_startup_uses_default_key :
    resolveApiKey Option.none = defaultApiKeyValue ∧
    startupCheck Option.none = .ok defaultApiKeyValue ∧
    defaultApiKeyValue ≠ "" :=
  ⟨rfl, rfl, by decide⟩

/-- Claim C9: for every tool name outside `{"search", "image_search"}` and
every arguments value, `call_tool` returns exactly one TextBlock stating the
tool is unsupported, and issues zero backend calls. -/
theorem c9_unknown_tool (b : Backends) (name : String) (args : PyVal)
    (h1 : name ≠ "search") (h2 : name ≠ "image_search") :
    (callTool b name args).blocks = [ContentBlock.text (unknownToolMsg name)] ∧
    (callTool b name args).tavilyCalls = [] ∧
    (callTool b name args).searxCalls = [] := by
  rw [callTool_other b name args h1 h2]
  exact ⟨rfl, rfl, rfl⟩

/-- Witness for C9 at the concrete unknown tool name `"frobnicate"`. -/
theorem c9_witness :
    ("frobnicate" : String) ≠ "search" ∧ ("frobnicate" : String) ≠ "image_search" ∧
    (callTool constBackends "frobnicate" (PyVal.str "x")).blocks
      = [ContentBlock.text (unknownToolMsg "frobnicate")] ∧
    (callTool constBackends "frobnicate" (PyVal.str "x")).tavilyCalls = [] ∧
    (callTool constBackends "frobnicate" (PyVal.str "x")).searxCalls = [] := by
  have h := c9_unknown_tool constBackends "frobnicate" (PyVal.str "x") (by decide) (by decide)
  exact ⟨by decide, by decide, h.1, h.2.1, h.2.2⟩

/-- Counterexample to claim C4 as stated: `{"query": ""}` is a mapping whose
`query` value is not a non-empty string, yet the dispatcher does not return
the InvalidArguments block and does issue a backend call — the code only
checks key presence (`"query" not in arguments`), never the value. -/
theorem c4_counterexample :
    PyVal.truthy (PyVal.str "") = false ∧
    (callTool constBackends "search" (PyVal.dict [("query", PyVal.str "")])).tavilyCalls
      = [(PyVal.str "", PyVal.str "basic")] ∧
    (callTool constBackends "search" (PyVal.dict [("query", PyVal.str "")])).blocks
      ≠ [ContentBlock.text searchInvalidArgsMsg] := by
  refine ⟨rfl, rfl, ?_⟩
  intro h
  have h0 : (callTool constBackends "search" (PyVal.dict [("query", PyVal.str "")])).blocks
      = [ContentBlock.text noResultsMsg] := rfl
  rw [h0] at h
  injection h with h1 _
  injection h1 with h2
  exact absurd h2 (by decide)

/-- Claim C4 as amended: for both tools, whenever `arguments` is not a mapping
containing the key `"query"` (the value under the key is not inspected),
dispatch returns exactly one InvalidArguments TextBlock and issues zero
backend calls. -/
theorem c4_invalid_args_amended (b : Backends) (args : PyVal) (h : hasQueryKey args = false) :
    ((callTool b "search" args).blocks = [ContentBlock.text searchInvalidArgsMsg] ∧
      (callTool b "search" args).tavilyCalls = [] ∧
      (callTool b "search" args).searxCalls = []) ∧
    ((callTool b "image_search" args).blocks = [ContentBlock.text imageInvalidArgsMsg] ∧
      (callTool b "image_search" args).tavilyCalls = [] ∧
      (callTool b "image_search" args).searxCalls = []) := by
  constructor
  · rw [callTool_search, handleTavily_invalid b.tavily args h]
    exact ⟨rfl, rfl, rfl⟩
  · rw [callTool_image, handleImage_invalid b.searxHttp args h]
    exact ⟨rfl, rfl, rfl⟩

/-- Witness for the amended C4 at the concrete non-mapping argument `7`. -/
theorem c4_witness :
    hasQueryKey (PyVal.int 7) = false ∧
    (callTool constBackends "search" (PyVal.int 7)).blocks
      = [ContentBlock.text searchInvalidArgsMsg] ∧
    (callTool constBackends "search" (PyVal.int 7)).tavilyCalls = [] ∧
    (callTool constBackends "image_search" (PyVal.int 7)).blocks
      = [ContentBlock.text imageInvalidArgsMsg] ∧
    (callTool constBackends "image_search" (PyVal.int 7)).searxCalls = [] := by
  have h := c4_invalid_args_amended constBackends (PyVal.int 7) rfl
  exact ⟨rfl, h.1.1, h.1.2.1, h.2.1, h.2.2.2⟩

/-- Claim C6: for image search, a supplied `limit` that coerces to an integer
is clamped to `[1, 20]` — the backend is invoked with exactly
`clamp(limit, 1, 20)`; an absent `limit` yields effective limit 5; and the
adapter truncates the backend's result list with that same limit
(`data["results"][:limit]`). -/
theorem c6_effective_limit :
    (∀ (b : Backends) (es : List (String × PyVal)) (q v : PyVal) (n : Int),
      lookupKey es "query" = some q → lookupKey es "limit" = some v → pyInt v = .ok n →
        (callTool b "image_search" (.dict es)).searxCalls = [(q, clampSpec n 1 20)]) ∧
    (∀ (b : Backends) (es : List (String × PyVal)) (q : PyVal),
      lookupKey es "query" = some q → lookupKey es "limit" = Option.none →
        (callTool b "image_search" (.dict es)).searxCalls = [(q, 5)]) ∧
    (∀ (q : PyVal) (lim : Int) (dur : Nat) (items : List RawImageItem),
      ¬ dur > searxDeadlineSeconds →
        performSearxngImageSearch (dur, .resp 200 ⟨some items⟩) q lim
          = .ok q ((items.take lim.toNat).map mkImageRecord) ∧
        ((items.take lim.toNat).map mkImageRecord).length = min lim.toNat items.length) := by
  refine ⟨?_, ?_, ?_⟩
  · intro b es q v n hq hv hn
    have hl : pyInt ((lookupKey es "limit").getD (.int 5)) = .ok n := by rw [hv]; exact hn
    rw [callTool_image]
    show (handleImageSearch b.searxHttp (.dict es)).2 = _
    rw [handleImage_call b.searxHttp es q n hq hl, clampLimit_eq_clampSpec]
  · intro b es q hq hv
    have hl : pyInt ((lookupKey es "limit").getD (.int 5)) = .ok 5 := by rw [hv]; rfl
    rw [callTool_image]
    show (handleImageSearch b.searxHttp (.dict es)).2 = _
    rw [handleImage_call b.searxHttp es q 5 hq hl]
    rfl
  · intro q lim dur items hd
    constructor
    · simp [performSearxngImageSearch, hd]
    · simp [List.length_take]

/-- Witness for C6 at the concrete arguments of spec scenario C
(`{"query": "cats", "limit": 25}`, clamped to 20) and at absent limit. -/
theorem c6_witness :
    lookupKey [("query", PyVal.str "cats"), ("limit", PyVal.int 25)] "query"
      = some (PyVal.str "cats") ∧
    lookupKey [("query", PyVal.str "cats"), ("limit", PyVal.int 25)] "limit"
      = some (PyVal.int 25) ∧
    pyInt (PyVal.int 25) = .ok 25 ∧
    (callTool constBackends "image_search"
        (.dict [("query", PyVal.str "cats"), ("limit", PyVal.int 25)])).searxCalls
      = [(PyVal.str "cats", clampSpec 25 1 20)] ∧
    (callTool constBackends "image_search" (.dict [("query", PyVal.str "cats")])).searxCalls
      = [(PyVal.str "cats", 5)] := by
  refine ⟨rfl, rfl, rfl, ?_, ?_⟩
  · exact c6_effective_limit.1 constBackends _ _ _ 25 rfl rfl rfl
  · exact c6_effective_limit.2.1 constBackends _ _ rfl rfl

/-- Claim C5: both backend calls run under a fixed 30-second deadline that is
a policy constant (not derived from input), and a call exceeding 30 seconds
yields a single TextBlock with the tool's fixed timeout message — the
dispatcher returns normally rather than propagating a cancellation error. -/
theorem c5_fixed_deadline :
    tavilyDeadlineSeconds = 30 ∧ searxDeadlineSeconds = 30 ∧
    (∀ (b : Backends) (es : List (String × PyVal)) (q : PyVal) (dur : Nat) (raw : TavilyRaw),
      lookupKey es "query" = some q →
      b.tavily q ((lookupKey es "search_depth").getD (.str "basic")) = (dur, raw) →
      dur > 30 →
        (callTool b "search" (.dict es)).blocks = [ContentBlock.text searchTimeoutMsg]) ∧
    (∀ (b : Backends) (es : List (String × PyVal)) (q : PyVal) (n : Int) (dur : Nat)
        (raw : SearxRaw),
      lookupKey es "query" = some q →
      pyInt ((lookupKey es "limit").getD (.int 5)) = .ok n →
      b.searxHttp q (clampLimit n) = (dur, raw) →
      dur > 30 →
        (callTool b "image_search" (.dict es)).blocks
          = [ContentBlock.text ("Error in image search: " ++ "Request timed out")]) := by
  refine ⟨rfl, rfl, ?_, ?_⟩
  · intro b es q dur raw hq hc hd
    rw [callTool_search]
    show (handleTavilySearch b.tavily (.dict es)).1 = _
    rw [handleTavily_timeout b.tavily es q dur raw hq hc hd]
  · intro b es q n dur raw hq hl hsx hd
    rw [callTool_image]
    show (handleImageSearch b.searxHttp (.dict es)).1 = _
    have hperf : performSearxngImageSearch (b.searxHttp q (clampLimit n)) q (clampLimit n)
        = .err "Request timed out" := by
      rw [hsx]
      have hd' : dur > searxDeadlineSeconds := hd
      simp [performSearxngImageSearch, hd']
    exact handleImage_perform_err b.searxHttp es q n "Request timed out" hq hl hperf

/-- Witness for C5: with backends whose calls take 31 seconds, both tools
return their single fixed timeout TextBlock. -/
theorem c5_witness :
    lookupKey [("query", PyVal.str "x")] "query" = some (PyVal.str "x") ∧
    slowBackends.tavily (PyVal.str "x") (PyVal.str "basic") = (31, .ok .empty) ∧ 31 > 30 ∧
    (callTool slowBackends "search" (.dict [("query", PyVal.str "x")])).blocks
      = [ContentBlock.text searchTimeoutMsg] ∧
    (callTool slowBackends "image_search" (.dict [("query", PyVal.str "x")])).blocks
      = [ContentBlock.text ("Error in image search: " ++ "Request timed out")] := by
  refine ⟨rfl, rfl, by decide, ?_, ?_⟩
  · exact c5_fixed_deadline.2.2.1 slowBackends _ _ 31 (.ok .empty) rfl rfl (by decide)
  · exact c5_fixed_deadline.2.2.2 slowBackends _ _ 5 31 (.resp 200 ⟨some []⟩) rfl rfl rfl
      (by decide)

/-- Counterexample to claim C3 as stated: the failure message `"Unauthorized"`
contains the substring `"auth"` (case-insensitively) and no
higher-priority substring, so the claimed classifier maps it to AuthFailure —
but the code (server.py lines 303-317) only tests `"api_key"` and
`"rate limit"`, so it renders the Unexpected message instead. -/
theorem c3_counterexample :
    strContains (strToLower "Unauthorized") "auth" = true ∧
    strContains (strToLower "Unauthorized") "api_key" = false ∧
    strContains (strToLower "Unauthorized") "rate limit" = false ∧
    classifyTavilyError "Unauthorized" ≠ authErrMsg ∧
    (callTool unauthorizedBackends "search" (PyVal.dict [("query", PyVal.str "x")])).blocks
      = [ContentBlock.text
          ("An unexpected error occurred during the search. Please try again later. Error: "
            ++ "Unauthorized")] := by
  refine ⟨by decide, by decide, by decide, by decide, rfl⟩

/-- Claim C3 as amended: the text-backend classifier checks, case-insensitively
and first-match-wins, only `"api_key"` (AuthFailure) then `"rate limit"`
(RateLimited); a timeout is detected by exception type before any substring
matching; every other failure maps to Unexpected with the original message
embedded. The image backend classifies by failure kind, not by substring:
timeout → fixed timed-out message, network-layer (`aiohttp.ClientError`) →
connection-error message, any other exception → generic message with the
original text embedded, and a non-200 HTTP status → status-code error. The
last conjunct shows the text-side precedence: when the call exceeds the
deadline, the fixed timeout block is returned for an arbitrary raised
message, i.e. before any substring classification of that message. -/
theorem c3_classifier_amended :
    (∀ m, strContains (strToLower m) "api_key" = true → classifyTavilyError m = authErrMsg) ∧
    (∀ m, strContains (strToLower m) "api_key" = false → strContains (strToLower m) "rate limit" = true →
      classifyTavilyError m = rateLimitMsg) ∧
    (∀ m, strContains (strToLower m) "api_key" = false → strContains (strToLower m) "rate limit" = false →
      classifyTavilyError m
        = "An unexpected error occurred during the search. Please try again later. Error: "
          ++ m) ∧
    (∀ (dur : Nat) (q : PyVal) (lim : Int) (raw : SearxRaw), dur > searxDeadlineSeconds →
      performSearxngImageSearch (dur, raw) q lim = .err "Request timed out") ∧
    (∀ (dur : Nat) (m : String) (q : PyVal) (lim : Int), ¬ dur > searxDeadlineSeconds →
      performSearxngImageSearch (dur, .clientError m) q lim
        = .err ("Connection error: " ++ m)) ∧
    (∀ (dur : Nat) (m : String) (q : PyVal) (lim : Int), ¬ dur > searxDeadlineSeconds →
      performSearxngImageSearch (dur, .exn m) q lim = .err ("Error during search: " ++ m)) ∧
    (∀ (dur status : Nat) (body : SearxBody) (q : PyVal) (lim : Int),
      ¬ dur > searxDeadlineSeconds → status ≠ 200 →
        performSearxngImageSearch (dur, .resp status body) q lim
          = .err ("SearXNG API returned status code " ++ toString status)) ∧
    (∀ (tavily : PyVal → PyVal → Nat × TavilyRaw) (es : List (String × PyVal)) (q : PyVal)
        (dur : Nat) (m : String),
      lookupKey es "query" = some q →
      tavily q ((lookupKey es "search_depth").getD (.str "basic")) = (dur, .exn m) →
      dur > tavilyDeadlineSeconds →
        (handleTavilySearch tavily (.dict es)).1 = [ContentBlock.text searchTimeoutMsg]) := by
  refine ⟨?_, ?_, ?_, ?_, ?_, ?_, ?_, ?_⟩
  · intro m h; simp [classifyTavilyError, h]
  · intro m h1 h2; simp [classifyTavilyError, h1, h2]
  · intro m h1 h2; simp [classifyTavilyError, h1, h2]
  · intro dur q lim raw hd; simp [performSearxngImageSearch, hd]
  · intro dur m q lim hd; simp [performSearxngImageSearch, hd]
  · intro dur m q lim hd; simp [performSearxngImageSearch, hd]
  · intro dur status body q lim hd hs; simp [performSearxngImageSearch, hd, hs]
  · intro tavily es q dur m hq hc hd
    rw [handleTavily_timeout tavily es q dur (.exn m) hq hc hd]

/-- Witness for the amended C3 at concrete messages of each class. -/
theorem c3_witness :
    strContains (strToLower "Invalid API_KEY provided") "api_key" = true ∧
    classifyTavilyError "Invalid API_KEY provided" = authErrMsg ∧
    strContains (strToLower "Rate Limit exceeded") "api_key" = false ∧
    strContains (strToLower "Rate Limit exceeded") "rate limit" = true ∧
    classifyTavilyError "Rate Limit exceeded" = rateLimitMsg ∧
    classifyTavilyError "boom"
      = "An unexpected error occurred during the search. Please try again later. Error: "
        ++ "boom" ∧
    performSearxngImageSearch (31, .resp 200 ⟨some []⟩) (PyVal.str "q") 5
      = .err "Request timed out" ∧
    performSearxngImageSearch (0, .clientError "refused") (PyVal.str "q") 5
      = .err ("Connection error: " ++ "refused") ∧
    performSearxngImageSearch (0, .exn "boom") (PyVal.str "q") 5
      = .err ("Error during search: " ++ "boom") ∧
    performSearxngImageSearch (0, .resp 500 ⟨some []⟩) (PyVal.str "q") 5
      = .err ("SearXNG API returned status code " ++ toString 500) ∧
    strContains (strToLower "api_key rate limit") "api_key" = true ∧
    (handleTavilySearch (fun _ _ => (31, TavilyRaw.exn "api_key rate limit"))
        (PyVal.dict [("query", PyVal.str "x")])).1
      = [ContentBlock.text searchTimeoutMsg] := by
  refine ⟨by decide, ?_, by decide, by decide, ?_, ?_, ?_, ?_, ?_, ?_, by decide, ?_⟩
  · exact c3_classifier_amended.1 "Invalid API_KEY provided" (by decide)
  · exact c3_classifier_amended.2.1 "Rate Limit exceeded" (by decide) (by decide)
  · exact c3_classifier_amended.2.2.1 "boom" (by decide) (by decide)
  · exact c3_classifier_amended.2.2.2.1 31 (PyVal.str "q") 5 (.resp 200 ⟨some []⟩) (by decide)
  · exact c3_classifier_amended.2.2.2.2.1 0 "refused" (PyVal.str "q") 5 (by decide)
  · exact c3_classifier_amended.2.2.2.2.2.1 0 "boom" (PyVal.str "q") 5 (by decide)
  · exact c3_classifier_amended.2.2.2.2.2.2.1 0 500 ⟨some []⟩ (PyVal.str "q") 5
      (by decide) (by decide)
  · exact c3_classifier_amended.2.2.2.2.2.2.2
      (fun _ _ => (31, TavilyRaw.exn "api_key rate limit"))
      [("query", PyVal.str "x")] (PyVal.str "x") 31 "api_key rate limit" rfl rfl (by decide)

/-- Claim C1: dispatch is total — for every tool name and every arguments
value it returns a non-empty ordered sequence of content blocks headed by a
TextBlock, and each failure path (unknown tool, invalid arguments, every
outcome of the text tool including timeout and exception, an image backend
failure, and an image limit-coercion failure) is rendered as exactly one
TextBlock instead of propagating a fault. -/
theorem c1_dispatch_total :
    (∀ (b : Backends) (name : String) (args : PyVal),
      ∃ t rest, (callTool b name args).blocks = ContentBlock.text t :: rest) ∧
    (∀ (b : Backends) (name : String) (args : PyVal),
      name ≠ "search" → name ≠ "image_search" →
        (callTool b name args).blocks = [ContentBlock.text (unknownToolMsg name)]) ∧
    (∀ (b : Backends) (args : PyVal),
      ∃ t, (callTool b "search" args).blocks = [ContentBlock.text t]) ∧
    (∀ (b : Backends) (args : PyVal), hasQueryKey args = false →
      (callTool b "image_search" args).blocks = [ContentBlock.text imageInvalidArgsMsg]) ∧
    (∀ (b : Backends) (es : List (String × PyVal)) (q : PyVal) (n : Int) (m : String),
      lookupKey es "query" = some q →
      pyInt ((lookupKey es "limit").getD (.int 5)) = .ok n →
      performSearxngImageSearch (b.searxHttp q (clampLimit n)) q (clampLimit n) = .err m →
        (callTool b "image_search" (.dict es)).blocks
          = [ContentBlock.text ("Error in image search: " ++ m)]) ∧
    (∀ (b : Backends) (es : List (String × PyVal)) (q : PyVal) (m : String),
      lookupKey es "query" = some q →
      pyInt ((lookupKey es "limit").getD (.int 5)) = .error m →
        (callTool b "image_search" (.dict es)).blocks
          = [ContentBlock.text (imageUnexpectedMsg m)]) := by
  refine ⟨?_, ?_, ?_, ?_, ?_, ?_⟩
  · intro b name args
    by_cases hs : name = "search"
    · subst hs
      obtain ⟨t, ht⟩ := handleTavily_single b.tavily args
      exact ⟨t, [], by rw [callTool_search]; exact ht⟩
    · by_cases hi : name = "image_search"
      · subst hi
        obtain ⟨t, rest, ht⟩ := handleImage_first_text b.searxHttp args
        exact ⟨t, rest, by rw [callTool_image]; exact ht⟩
      · exact ⟨unknownToolMsg name, [], by rw [callTool_other b name args hs hi]⟩
  · intro b name args h1 h2
    rw [callTool_other b name args h1 h2]
  · intro b args
    obtain ⟨t, ht⟩ := handleTavily_single b.tavily args
    exact ⟨t, by rw [callTool_search]; exact ht⟩
  · intro b args h
    rw [callTool_image, handleImage_invalid b.searxHttp args h]
  · intro b es q n m hq hl hp
    rw [callTool_image]
    exact handleImage_perform_err b.searxHttp es q n m hq hl hp
  · intro b es q m hq hl
    rw [callTool_image, handleImage_coercion_err b.searxHttp es q m hq hl]

/-- Witness for C1 at concrete inputs for each hypothesis-bearing branch. -/
theorem c1_witness :
    (∃ t rest, (callTool constBackends "search" (PyVal.str "x")).blocks
      = ContentBlock.text t :: rest) ∧
    (("frobnicate" : String) ≠ "search" ∧ ("frobnicate" : String) ≠ "image_search" ∧
      (callTool constBackends "frobnicate" PyVal.none).blocks
        = [ContentBlock.text (unknownToolMsg "frobnicate")]) ∧
    (hasQueryKey (PyVal.str "x") = false ∧
      (callTool constBackends "image_search" (PyVal.str "x")).blocks
        = [ContentBlock.text imageInvalidArgsMsg]) ∧
    (callTool unauthorizedBackends "image_search" (PyVal.dict [("query", PyVal.str "x")])).blocks
      = [ContentBlock.text ("Error in image search: " ++ ("Connection error: " ++ "boom"))] ∧
    (callTool constBackends "image_search"
        (PyVal.dict [("query", PyVal.str "x"), ("limit", PyVal.none)])).blocks
      = [ContentBlock.text (imageUnexpectedMsg
          "int() argument must be a string, a bytes-like object or a real number, not \x27NoneType\x27")] := by
  refine ⟨c1_dispatch_total.1 constBackends "search" (PyVal.str "x"),
    ⟨by decide, by decide,
      c1_dispatch_total.2.1 constBackends "frobnicate" PyVal.none (by decide) (by decide)⟩,
    ⟨rfl, c1_dispatch_total.2.2.2.1 constBackends (PyVal.str "x") rfl⟩,
    c1_dispatch_total.2.2.2.2.1 unauthorizedBackends [("query", PyVal.str "x")]
      (PyVal.str "x") 5 ("Connection error: " ++ "boom") rfl rfl rfl,
    c1_dispatch_total.2.2.2.2.2 constBackends [("query", PyVal.str "x"), ("limit", PyVal.none)]
      (PyVal.str "x")
      "int() argument must be a string, a bytes-like object or a real number, not \x27NoneType\x27"
      rfl rfl⟩

/-- Claim C7: text-search normalization — a falsy backend result yields the
fixed "no results" TextBlock and a truthy result contributing neither answer
nor results yields the fixed fallback TextBlock (both input-independent);
otherwise one TextBlock is built whose "AI Answer" section is present exactly
when the answer is present and non-empty, followed by the "Search Results"
section; each result contributes title / URL / Summary lines with the fixed
placeholder strings for missing fields, indexed 1-based in backend order. -/
theorem c7_text_normalization :
    (processSearchResults .empty = .text noResultsMsg) ∧
    (∀ r : TavilyResp, answerTruthy r.answer = false → resultsTruthy r.results = false →
      processSearchResults (.data r) = .text noRelevantMsg) ∧
    (∀ (a : String) (l : List SearchItem), a ≠ "" → l ≠ [] →
      processSearchResults (.data ⟨some a, some l⟩) =
        .text ("AI Answer:" ++ "\n" ++ (a ++ "\n" ++ ("\n" ++ "\n"
          ++ ("\nSearch Results:" ++ "\n" ++ joinLines (renderItems 1 l)))))) ∧
    (∀ a : String, a ≠ "" →
      processSearchResults (.data ⟨some a, Option.none⟩) =
        .text ("AI Answer:" ++ "\n" ++ (a ++ "\n" ++ "\n"))) ∧
    (∀ l : List SearchItem, l ≠ [] →
      processSearchResults (.data ⟨Option.none, some l⟩) =
        .text ("\nSearch Results:" ++ "\n" ++ joinLines (renderItems 1 l))) ∧
    (∀ (l : List SearchItem) (i : Nat),
      (renderItems 1 l).get? (3 * i) = (l.get? i).map
        (fun item => "\n" ++ toString (1 + i) ++ ". " ++ item.title.getD "Title not found") ∧
      (renderItems 1 l).get? (3 * i + 1) = (l.get? i).map
        (fun item => "URL: " ++ item.url.getD "URL not found") ∧
      (renderItems 1 l).get? (3 * i + 2) = (l.get? i).map
        (fun item => "Summary: " ++ item.snippet.getD "Summary not found" ++ "\n")) ∧
    (∀ l : List SearchItem, (renderItems 1 l).length = 3 * l.length) := by
  refine ⟨rfl, processSearch_noContent, processSearch_both, processSearch_answerOnly,
    processSearch_resultsOnly, ?_, fun l => renderItems_length l 1⟩
  intro l i
  exact ⟨renderItems_titleLine l 1 i, renderItems_urlLine l 1 i, renderItems_summaryLine l 1 i⟩

/-- Witness for C7 at the inputs of spec scenarios A and B. -/
theorem c7_witness :
    ("42" : String) ≠ "" ∧ ([sampleSearchItem] : List SearchItem) ≠ [] ∧
    processSearchResults (.data ⟨some "42", some [sampleSearchItem]⟩) =
      .text ("AI Answer:" ++ "\n" ++ ("42" ++ "\n" ++ ("\n" ++ "\n"
        ++ ("\nSearch Results:" ++ "\n" ++ joinLines (renderItems 1 [sampleSearchItem]))))) ∧
    answerTruthy (some "") = false ∧ resultsTruthy Option.none = false ∧
    processSearchResults (.data ⟨some "", Option.none⟩) = .text noRelevantMsg := by
  refine ⟨by decide, by simp, ?_, rfl, rfl, ?_⟩
  · exact c7_text_normalization.2.2.1 "42" [sampleSearchItem] (by decide) (by simp)
  · exact c7_text_normalization.2.1 ⟨some "", Option.none⟩ rfl rfl

/-- Claim C8: image normalization — an empty normalized result set yields the
single "no image results" TextBlock; otherwise the output is one summary
TextBlock (whose per-record entry omits the size line exactly when a
dimension is zero or absent) followed by one ImageBlock per record with
non-empty `img_src`, preserving backend order, so records lacking `img_src`
appear in the summary but contribute no ImageBlock. -/
theorem c8_image_normalization :
    (∀ q : PyVal, processImageSearchResults (.ok q [])
      = .ok [ContentBlock.text noImageResultsMsg]) ∧
    (∀ (q : PyVal) (items : List RawImageItem), items ≠ [] →
      processImageSearchResults (.ok q (items.map mkImageRecord))
        = .ok (ContentBlock.text (specSummary q items) :: specImageBlocks items)) ∧
    (∀ (idx : Nat) (it : RawImageItem),
      summaryEntry idx (mkImageRecord it) = .ok (specSummaryEntry idx it)) ∧
    (∀ items : List RawImageItem,
      buildImages (items.map mkImageRecord) = .ok (specImageBlocks items)) :=
  ⟨processImage_emptyRes, processImage_mk, summaryEntry_mk, buildImages_mk⟩

/-- Witness for C8 at a concrete two-record result, one record with an image
source and one without (the latter appears in the summary only). -/
theorem c8_witness :
    ([sampleImageItem, sampleImageItemNoSrc] : List RawImageItem) ≠ [] ∧
    processImageSearchResults
        (.ok (PyVal.str "cats") ([sampleImageItem, sampleImageItemNoSrc].map mkImageRecord))
      = .ok (ContentBlock.text
          (specSummary (PyVal.str "cats") [sampleImageItem, sampleImageItemNoSrc])
          :: specImageBlocks [sampleImageItem, sampleImageItemNoSrc]) ∧
    specImageBlocks [sampleImageItem, sampleImageItemNoSrc]
      = [ContentBlock.image (PyVal.str "https://example.com/a.jpg") (PyVal.str "Tokyo")] := by
  refine ⟨by simp, ?_, rfl⟩
  exact c8_image_normalization.2.1 (PyVal.str "cats") [sampleImageItem, sampleImageItemNoSrc]
    (by simp)

/-- Claim C10: every record built by the image adapter carries all seven
fields (with defaults for missing backend data), so the normalizer's direct
`img[...]` accesses cannot fail and normalization of any adapter-produced
result is total and non-empty. -/
theorem c10_adapter_record_invariant :
    (∀ it : RawImageItem,
      (lookupKey (mkImageRecord it) "title").isSome = true ∧
      (lookupKey (mkImageRecord it) "url").isSome = true ∧
      (lookupKey (mkImageRecord it) "img_src").isSome = true ∧
      (lookupKey (mkImageRecord it) "source").isSome = true ∧
      (lookupKey (mkImageRecord it) "thumbnail").isSome = true ∧
      (lookupKey (mkImageRecord it) "height").isSome = true ∧
      (lookupKey (mkImageRecord it) "width").isSome = true) ∧
    (∀ (httpCall : Nat × SearxRaw) (q : PyVal) (limit : Int),
      ∃ blocks, processImageSearchResults (performSearxngImageSearch httpCall q limit)
        = .ok blocks ∧ blocks ≠ []) := by
  refine ⟨fun it => ⟨rfl, rfl, rfl, rfl, rfl, rfl, rfl⟩, ?_⟩
  intro httpCall q limit
  obtain ⟨t, rest, h⟩ := processImage_adapter_total httpCall q limit
  exact ⟨ContentBlock.text t :: rest, h, by simp⟩
